import Mathlib

/-!
Verification of the closure-registry and signal-connection bridge of
diamondburned/go-glib (`core/closure/closure.go` and the `glib` connect file).

The Go code is shallowly embedded: `sync.Map` and plain Go maps become
association lists with store/lookup/delete operations, pointers and handles
become opaque `Nat` tokens, and the stateful connect path becomes explicit
state passing over a `GlibState` record.  Panics become `Except` errors.
-/

namespace GoGlib

/-- An opaque Go `reflect.Type`, identified by a token.  Only identity and a
caller-supplied convertibility relation matter to the embedded code. -/
structure GoType where
  id : Nat
deriving DecidableEq, Repr

/-- Model of `closure.FuncStack` (its definition lives outside the two source
files; the connect path only consumes the callback's reflect parameter list
via `fs.Func.Type()` and the caller-skip used for diagnostics, so the model
keeps exactly those). -/
structure FuncStack where
  params : List GoType
  callerSkip : Nat
deriving DecidableEq, Repr

/-- Modelled from the spec: `closure.NewFuncStack(f, 2)` constructs a Callable
Wrapper from the host callable (here: its parameter type list) plus a capture
depth used only for diagnostics.  The constructor itself is not under src/. -/
def NewFuncStack (params : List GoType) (callerSkip : Nat) : FuncStack :=
  ⟨params, callerSkip⟩

/-! Finite-map model of Go maps and `sync.Map`.

`mapStore` is `sync.Map.Store` / Go map assignment (replace any existing
entry), `mapLookup` is `Load` / map indexing, `mapDelete` is `Delete` /
`delete` (no-op when the key is absent). -/

/-- Model of `sync.Map.Store` / Go map assignment: bind `k` to `v`, dropping any
previous binding of `k`. -/
def mapStore (m : List (Nat × α)) (k : Nat) (v : α) : List (Nat × α) :=
  (k, v) :: m.filter (fun p => !(p.1 == k))

/-- Model of `sync.Map.Load` / Go map lookup: the value bound to `k`, if any. -/
def mapLookup (m : List (Nat × α)) (k : Nat) : Option α :=
  (m.find? (fun p => p.1 == k)).map Prod.snd

/-- Model of `sync.Map.Delete` / Go `delete`: remove any binding of `k`. -/
def mapDelete (m : List (Nat × α)) (k : Nat) : List (Nat × α) :=
  m.filter (fun p => !(p.1 == k))

/-! The closure Registry (`core/closure/closure.go`, lines 8–35). -/

/-- Model of `closure.Registry`: the per-object closure registry, a `sync.Map` from
`unsafe.Pointer(*C.GClosure)` (an opaque `Nat` token here) to `*FuncStack`. -/
def Registry := List (Nat × FuncStack)
deriving DecidableEq, Repr

/-- Model of `closure.NewRegistry`: an empty registry. -/
def NewRegistry : Registry := []

/-- Model of `Registry.Register`: `r.reg.Store(gclosure, callback)`. -/
def Registry.Register (r : Registry) (gclosure : Nat) (callback : FuncStack) :
    Registry :=
  mapStore r gclosure callback

/-- Model of `Registry.Load`: `r.reg.Load(gclosure)`; `none` models the nil return. -/
def Registry.Load (r : Registry) (gclosure : Nat) : Option FuncStack :=
  mapLookup r gclosure

/-- Model of `Registry.Delete`: `r.reg.Delete(gclosure)`. -/
def Registry.Delete (r : Registry) (gclosure : Nat) : Registry :=
  mapDelete r gclosure

/-! Signal association (legacy commented block of `closure.go`, lines 37–110).

The bidirectional handle ↔ closure association lives only in the commented-out
legacy global design; the live code never records an association. -/

/-- The legacy global signal-association state (commented out in
`closure.go`): `signalClosures : uint(SourceHandle) -> unsafe.Pointer`,
`closureSignals : unsafe.Pointer -> uint(SourceHandle)`, plus the legacy
global `closures` map. -/
structure SigState where
  signalClosures : List (Nat × Nat)
  closureSignals : List (Nat × Nat)
  closures : List (Nat × FuncStack)
deriving DecidableEq, Repr

/-- Legacy `RegisterSignal(handle, closure)`: store both directions of the
association under the signal mutex. -/
def RegisterSignal (s : SigState) (handle gclosure : Nat) : SigState :=
  { s with signalClosures := mapStore s.signalClosures handle gclosure,
           closureSignals := mapStore s.closureSignals gclosure handle }

/-- Legacy `DisconnectSignal(handle)`: look up the closure for the handle; if
present, delete the closure from the global registry and remove both
directions of the association; otherwise do nothing. -/
def DisconnectSignal (s : SigState) (handle : Nat) : SigState :=
  match mapLookup s.signalClosures handle with
  | some gclosure =>
      { s with closures := mapDelete s.closures gclosure,
               closureSignals := mapDelete s.closureSignals gclosure,
               signalClosures := mapDelete s.signalClosures handle }
  | none => s

/-- Modelled from the spec: `Dissociate(handle)` of the Signal Association
Table (§4.3; the live in-tree replacement for the legacy table is not under
src/): removes both directions of the association; if absent, no-op. -/
def SigState.Dissociate (s : SigState) (handle : Nat) : SigState :=
  match mapLookup s.signalClosures handle with
  | some gclosure =>
      { s with signalClosures := mapDelete s.signalClosures handle,
               closureSignals := mapDelete s.closureSignals gclosure }
  | none => s

/-! The connect path (the `glib` connect file). -/

/-- Per-process snapshot of the embedded state: each object's own closure
registry (`v.box.Closures`), the signal-association state, and fresh-token
counters standing for the native closure allocator (`g_closure_new_simple`)
and for the handler id returned by `g_signal_connect_closure`. -/
structure GlibState where
  objRegs : List (Nat × Registry)
  sig : SigState
  nextClosure : Nat
  nextHandle : Nat
deriving DecidableEq, Repr

/-- The registry of object `v` (`v.box.Closures`); an object that has not
registered anything yet has an empty registry. -/
def objRegistry (s : GlibState) (v : Nat) : Registry :=
  (mapLookup s.objRegs v).getD NewRegistry

/-- Replace object `v`'s registry by `f` of its current registry. -/
def updateObjRegistry (s : GlibState) (v : Nat) (f : Registry → Registry) :
    GlibState :=
  { s with objRegs := mapStore s.objRegs v (f (objRegistry s v)) }

/-- The observable native-side calls of the connect path, in program order. -/
inductive Event where
  | register (obj gclosure : Nat)
  | setMetaMarshal (gclosure : Nat)
  | addFinalizeNotifier (gclosure : Nat)
  | signalConnect (obj : Nat) (detailedSignal : String) (gclosure : Nat)
      (after : Bool)
deriving DecidableEq, Repr

/-- Result of `Object.ClosureNew`: the new state, the new closure's identity,
and the native calls it made, in order. -/
structure ClosureNewResult where
  state : GlibState
  gclosure : Nat
  events : List Event
deriving DecidableEq, Repr

/-- Model of `Object.ClosureNew`: allocate a native closure (`g_closure_new_simple`,
modelled by the fresh-token counter), register the FuncStack in the object's
own registry (`v.box.Closures.Register`), then set the meta-marshal
(`goMarshal`) and add the finalize notifier (`removeClosure`).  The event
list records these native calls in program order. -/
def Object.ClosureNew (s : GlibState) (v : Nat) (fs : FuncStack) :
    ClosureNewResult :=
  let gclosure := s.nextClosure
  let s1 : GlibState := { s with nextClosure := gclosure + 1 }
  let s2 := updateObjRegistry s1 v (fun r => r.Register gclosure fs)
  { state := s2, gclosure := gclosure,
    events := [.register v gclosure, .setMetaMarshal gclosure,
               .addFinalizeNotifier gclosure] }

/-- Constant `ClosureCheckReceiver`: compile-time constant, `false` in the source. -/
def ClosureCheckReceiver : Bool := false

/-- The two `fs.Panicf` messages of the receiver-validation block. -/
inductive PanicMsg where
  | missingReceiver
  | receiverNotConvertible
deriving DecidableEq, Repr

/-- Result of `connectClosure`: final state, native calls made, and either
the returned `SignalHandle` or the panic raised. -/
structure ConnectResult where
  state : GlibState
  events : List Event
  result : Except PanicMsg Nat
deriving Repr

/-- Model of `Object.connectClosure`, parameterised over the `ClosureCheckReceiver`
constant (the source reads the constant directly; its doc comment says it can
be changed via a go.mod replace directive, so the checked variant keeps the
flag explicit).  `conv` is reflect's `ConvertibleTo`; `objValue` is the
result of `v.goValue()`, `none` when that call errors (the check is skipped
then).  A `Panicf` aborts before any native state is touched, so it becomes
an `.error` result carrying the unchanged state and an empty event list. -/
def connectClosureChecked (check : Bool) (conv : GoType → GoType → Bool)
    (s : GlibState) (v : Nat) (objValue : Option GoType) (after : Bool)
    (detailedSignal : String) (f : List GoType) : ConnectResult :=
  let fs := NewFuncStack f 2
  let go : Unit → ConnectResult := fun _ =>
    let res := Object.ClosureNew s v fs
    let handle := res.state.nextHandle
    let s2 : GlibState := { res.state with nextHandle := handle + 1 }
    { state := s2,
      events := res.events ++
        [.signalConnect v detailedSignal res.gclosure after],
      result := .ok handle }
  if check then
    match objValue with
    | some objType =>
      match fs.params with
      | [] => { state := s, events := [], result := .error .missingReceiver }
      | first :: _ =>
        if conv objType first then go ()
        else { state := s, events := [],
               result := .error .receiverNotConvertible }
    | none => go ()
  else go ()

/-- Model of `Object.connectClosure` as compiled: the receiver check is governed by
the constant `ClosureCheckReceiver`.  `Object.Connect` is `connectClosure`
with `after = false`, `Object.ConnectAfter` with `after = true`. -/
def connectClosure (conv : GoType → GoType → Bool) (s : GlibState) (v : Nat)
    (objValue : Option GoType) (after : Bool) (detailedSignal : String)
    (f : List GoType) : ConnectResult :=
  connectClosureChecked ClosureCheckReceiver conv s v objValue after
    detailedSignal f

/-- Model of `Object.Connect(detailedSignal, f)`. -/
def Connect (conv : GoType → GoType → Bool) (s : GlibState) (v : Nat)
    (objValue : Option GoType) (detailedSignal : String) (f : List GoType) :
    ConnectResult :=
  connectClosure conv s v objValue false detailedSignal f

/-- Model of `Object.ConnectAfter(detailedSignal, f)`. -/
def ConnectAfter (conv : GoType → GoType → Bool) (s : GlibState) (v : Nat)
    (objValue : Option GoType) (detailedSignal : String) (f : List GoType) :
    ConnectResult :=
  connectClosure conv s v objValue true detailedSignal f

/-- Modelled from the spec: `intern.RemoveClosure`, the body of the finalize
trampoline (the `intern` package is not under src/).  §4.6: perform
`Registry.Delete(identity)` on the owning object's registry; then, if a
signal association exists for this identity, `Dissociate` the corresponding
handle. -/
def RemoveClosure (s : GlibState) (obj gclosure : Nat) : GlibState :=
  let s1 := updateObjRegistry s obj (fun r => r.Delete gclosure)
  match mapLookup s1.sig.closureSignals gclosure with
  | some handle => { s1 with sig := s1.sig.Dissociate handle }
  | none => s1

/-- Model of `removeClosure` (the exported finalize trampoline): forwards the object
and closure pointers to `intern.RemoveClosure`. -/
def removeClosure (s : GlibState) (obj gclosure : Nat) : GlibState :=
  RemoveClosure s obj gclosure

/-- A native-originated argument value, opaque to the bridge. -/
abbrev NativeValue := Nat

/-- Outcome of one Marshal Trampoline invocation: skipped (benign teardown
race), invoked with the converted argument list, or an arity error reported
through the host failure channel. -/
inductive MarshalResult where
  | skipped
  | invoked (args : List NativeValue)
  | arityError
deriving DecidableEq, Repr

/-- Modelled from the spec: `goMarshal`, the Marshal Trampoline (§4.5; its Go
body is not under src/).  Load the identity from the registry; absent means a
benign race and no invocation; otherwise truncate extra native arguments to
the declared parameter count and invoke, and fail with an arity error when
fewer arguments than declared parameters were supplied. -/
def goMarshal (r : Registry) (gclosure : Nat) (args : List NativeValue) :
    MarshalResult :=
  match r.Load gclosure with
  | none => .skipped
  | some fs =>
    if args.length < fs.params.length then .arityError
    else .invoked (args.take fs.params.length)

/-! Map lemmas. -/

theorem mapLookup_store_self (m : List (Nat × α)) (k : Nat) (v : α) :
    mapLookup (mapStore m k v) k = some v := by
  simp [mapLookup, mapStore, List.find?]

theorem mapLookup_store_other (m : List (Nat × α)) (k k' : Nat) (v : α)
    (h : k' ≠ k) : mapLookup (mapStore m k v) k' = mapLookup m k' := by
  simp only [mapLookup, mapStore]
  rw [List.find?_cons_of_neg]
  · induction m with
    | nil => rfl
    | cons p m ih =>
      by_cases hk : p.1 = k
      · rw [List.filter_cons_of_neg, List.find?_cons_of_neg]
        · exact ih
        · simp [hk, Ne.symm h]
        · simp [hk]
      · rw [List.filter_cons_of_pos]
        · by_cases hk' : p.1 = k'
          · rw [List.find?_cons_of_pos, List.find?_cons_of_pos] <;> simp [hk']
          · rw [List.find?_cons_of_neg, List.find?_cons_of_neg]
            · exact ih
            · simp [hk']
            · simp [hk']
        · simp [hk]
  · simp [Ne.symm h]

theorem mapLookup_delete_self (m : List (Nat × α)) (k : Nat) :
    mapLookup (mapDelete m k) k = none := by
  simp only [mapLookup, mapDelete]
  induction m with
  | nil => rfl
  | cons p m ih =>
    by_cases hk : p.1 = k
    · rw [List.filter_cons_of_neg]
      · exact ih
      · simp [hk]
    · rw [List.filter_cons_of_pos]
      · rw [List.find?_cons_of_neg]
        · exact ih
        · simp [hk]
      · simp [hk]

theorem mapLookup_delete_other (m : List (Nat × α)) (k k' : Nat)
    (h : k' ≠ k) : mapLookup (mapDelete m k) k' = mapLookup m k' := by
  simp only [mapLookup, mapDelete]
  induction m with
  | nil => rfl
  | cons p m ih =>
    by_cases hk : p.1 = k
    · rw [List.filter_cons_of_neg, List.find?_cons_of_neg]
      · exact ih
      · simp [hk, Ne.symm h]
      · simp [hk]
    · rw [List.filter_cons_of_pos]
      · by_cases hk' : p.1 = k'
        · rw [List.find?_cons_of_pos, List.find?_cons_of_pos] <;> simp [hk']
        · rw [List.find?_cons_of_neg, List.find?_cons_of_neg]
          · exact ih
          · simp [hk']
          · simp [hk']
      · simp [hk]

theorem mapDelete_idem (m : List (Nat × α)) (k : Nat) :
    mapDelete (mapDelete m k) k = mapDelete m k := by
  simp only [mapDelete]
  induction m with
  | nil => rfl
  | cons p m ih =>
    by_cases hk : p.1 = k
    · rw [List.filter_cons_of_neg] <;> simp [hk, ih]
    · rw [List.filter_cons_of_pos, List.filter_cons_of_pos] <;> simp [hk, ih]

theorem mapDelete_absent (m : List (Nat × α)) (k : Nat)
    (h : mapLookup m k = none) : mapDelete m k = m := by
  have h' : m.find? (fun p => p.1 == k) = none := by
    cases hf : m.find? (fun p => p.1 == k) with
    | none => rfl
    | some q => simp [mapLookup, hf] at h
  rw [List.find?_eq_none] at h'
  simp only [mapDelete]
  rw [List.filter_eq_self]
  intro q hq
  simpa using h' q hq

/-! Claim theorems. -/

/-- C1: Register→Load→Delete round-trip: `Load i` after `Register i w` returns
`w`, and operations on another identity `j ≠ i` (a `Register` or a `Delete`)
do not disturb it; after `Delete i`, `Load i` returns absent (`none`). -/
theorem c1_registry_roundtrip (r : Registry) (i j : Nat) (w w' : FuncStack)
    (hij : j ≠ i) :
    (r.Register i w).Load i = some w ∧
    ((r.Register i w).Register j w').Load i = some w ∧
    ((r.Register i w).Delete j).Load i = some w ∧
    (r.Delete i).Load i = none := by
  refine ⟨mapLookup_store_self r i w, ?_, ?_, mapLookup_delete_self r i⟩
  · rw [Registry.Load, Registry.Register, Registry.Register,
      mapLookup_store_other _ _ _ _ (Ne.symm hij)]
    exact mapLookup_store_self r i w
  · rw [Registry.Load, Registry.Delete, Registry.Register,
      mapLookup_delete_other _ _ _ (Ne.symm hij)]
    exact mapLookup_store_self r i w

theorem c1_registry_roundtrip_witness :
    ((NewRegistry.Register 1 ⟨[], 2⟩).Load 1 = some ⟨[], 2⟩ ∧
     ((NewRegistry.Register 1 ⟨[], 2⟩).Register 2 ⟨[⟨5⟩], 2⟩).Load 1 =
       some ⟨[], 2⟩ ∧
     ((NewRegistry.Register 1 ⟨[], 2⟩).Delete 2).Load 1 = some ⟨[], 2⟩ ∧
     (NewRegistry.Delete 1).Load 1 = none) :=
  c1_registry_roundtrip NewRegistry 1 2 ⟨[], 2⟩ ⟨[⟨5⟩], 2⟩ (by decide)

/-- C2 (counterexample): a successful Connect does not record any
association.  Starting from the empty state, `connectClosure` succeeds and
returns signal handle 0 for closure identity 0, yet afterwards neither
direction of the association table maps them. -/
theorem c2_counterexample :
    (connectClosure (fun _ _ => true) ⟨[], ⟨[], [], []⟩, 0, 0⟩ 1 none false
      "clicked" []).result = Except.ok 0 ∧
    mapLookup (connectClosure (fun _ _ => true) ⟨[], ⟨[], [], []⟩, 0, 0⟩ 1
      none false "clicked" []).state.sig.signalClosures 0 = none ∧
    mapLookup (connectClosure (fun _ _ => true) ⟨[], ⟨[], [], []⟩, 0, 0⟩ 1
      none false "clicked" []).state.sig.closureSignals 0 = none :=
  ⟨rfl, rfl, rfl⟩

/-- C2 (amended): the live connect path records no association at all — the
association state is untouched by `connectClosure` for every input — and the
bidirectional mapping h ↔ i would be recorded only by the commented-out
legacy `RegisterSignal`, which stores both directions. -/
theorem c2_no_association (conv : GoType → GoType → Bool) (s : GlibState)
    (v : Nat) (objValue : Option GoType) (after : Bool)
    (detailedSignal : String) (f : List GoType) (h g : Nat) :
    (connectClosure conv s v objValue after detailedSignal f).state.sig =
      s.sig ∧
    mapLookup (RegisterSignal s.sig h g).signalClosures h = some g ∧
    mapLookup (RegisterSignal s.sig h g).closureSignals g = some h :=
  ⟨rfl, mapLookup_store_self _ _ _, mapLookup_store_self _ _ _⟩

/-- C3: the finalize trampoline `removeClosure obj g` deletes the registry
entry for `g` in `obj`'s registry and, when a bidirectional association
g ↔ h exists, dissociates the handle: afterwards the registry entry and both
directions of the association are absent, without any explicit Disconnect. -/
theorem c3_finalize_cleanup (s : GlibState) (obj g h : Nat)
    (hcg : mapLookup s.sig.closureSignals g = some h)
    (hsc : mapLookup s.sig.signalClosures h = some g) :
    (objRegistry (removeClosure s obj g) obj).Load g = none ∧
    mapLookup (removeClosure s obj g).sig.closureSignals g = none ∧
    mapLookup (removeClosure s obj g).sig.signalClosures h = none := by
  refine ⟨?_, ?_, ?_⟩ <;>
    simp [removeClosure, RemoveClosure, updateObjRegistry, objRegistry,
      SigState.Dissociate, Registry.Load, Registry.Delete, hcg, hsc,
      mapLookup_store_self, mapLookup_delete_self]

/-- C3 (witness): the theorem applied to a one-association state. -/
theorem c3_finalize_cleanup_witness :
    mapLookup (⟨[(5, 9)], [(9, 5)], []⟩ : SigState).closureSignals 9 =
      some 5 ∧
    mapLookup (⟨[(5, 9)], [(9, 5)], []⟩ : SigState).signalClosures 5 =
      some 9 ∧
    ((objRegistry
        (removeClosure ⟨[], ⟨[(5, 9)], [(9, 5)], []⟩, 0, 0⟩ 3 9) 3).Load 9 =
          none ∧
      mapLookup
        (removeClosure ⟨[], ⟨[(5, 9)], [(9, 5)], []⟩, 0, 0⟩ 3
          9).sig.closureSignals 9 = none ∧
      mapLookup
        (removeClosure ⟨[], ⟨[(5, 9)], [(9, 5)], []⟩, 0, 0⟩ 3
          9).sig.signalClosures 5 = none) :=
  ⟨rfl, rfl,
    c3_finalize_cleanup ⟨[], ⟨[(5, 9)], [(9, 5)], []⟩, 0, 0⟩ 3 9 5 rfl rfl⟩

/-- C4: Delete is idempotent (twice equals once, and deleting an absent
identity is a no-op), and likewise the legacy `DisconnectSignal` and the
spec's `Dissociate` are idempotent in the handle. -/
theorem c4_delete_idempotent (r r' : Registry) (s : SigState) (i i' h : Nat)
    (habs : r'.Load i' = none) :
    (r.Delete i).Delete i = r.Delete i ∧
    r'.Delete i' = r' ∧
    DisconnectSignal (DisconnectSignal s h) h = DisconnectSignal s h ∧
    SigState.Dissociate (SigState.Dissociate s h) h =
      SigState.Dissociate s h := by
  refine ⟨mapDelete_idem r i, mapDelete_absent r' i' habs, ?_, ?_⟩
  · cases hl : mapLookup s.signalClosures h with
    | none =>
      have hD : DisconnectSignal s h = s := by simp [DisconnectSignal, hl]
      simp only [hD]
    | some g =>
      have hD : DisconnectSignal s h =
          { s with closures := mapDelete s.closures g,
                   closureSignals := mapDelete s.closureSignals g,
                   signalClosures := mapDelete s.signalClosures h } := by
        simp [DisconnectSignal, hl]
      rw [hD]
      simp [DisconnectSignal, mapLookup_delete_self]
  · cases hl : mapLookup s.signalClosures h with
    | none =>
      have hD : SigState.Dissociate s h = s := by
        simp [SigState.Dissociate, hl]
      simp only [hD]
    | some g =>
      have hD : SigState.Dissociate s h =
          { s with signalClosures := mapDelete s.signalClosures h,
                   closureSignals := mapDelete s.closureSignals g } := by
        simp [SigState.Dissociate, hl]
      rw [hD]
      simp [SigState.Dissociate, mapLookup_delete_self]

/-- C4 (witness): the theorem applied to concrete one-entry states. -/
theorem c4_delete_idempotent_witness :
    (NewRegistry.Register 1 ⟨[], 2⟩).Load 3 = none ∧
    (((NewRegistry.Register 1 ⟨[], 2⟩).Delete 1).Delete 1 =
        (NewRegistry.Register 1 ⟨[], 2⟩).Delete 1 ∧
      (NewRegistry.Register 1 ⟨[], 2⟩).Delete 3 =
        NewRegistry.Register 1 ⟨[], 2⟩ ∧
      DisconnectSignal
          (DisconnectSignal ⟨[(5, 9)], [(9, 5)], []⟩ 5) 5 =
        DisconnectSignal ⟨[(5, 9)], [(9, 5)], []⟩ 5 ∧
      SigState.Dissociate
          (SigState.Dissociate ⟨[(5, 9)], [(9, 5)], []⟩ 5) 5 =
        SigState.Dissociate ⟨[(5, 9)], [(9, 5)], []⟩ 5) :=
  ⟨rfl,
    c4_delete_idempotent (NewRegistry.Register 1 ⟨[], 2⟩)
      (NewRegistry.Register 1 ⟨[], 2⟩) ⟨[(5, 9)], [(9, 5)], []⟩ 1 3 5 rfl⟩

/-- C5 (counterexample): registering under a live identity is not reported
at all: `Register` silently overwrites.  Identity 7 is live holding one
wrapper, a second `Register` succeeds, and `Load` returns the new, different
wrapper. -/
theorem c5_counterexample :
    (NewRegistry.Register 7 ⟨[], 2⟩).Load 7 = some ⟨[], 2⟩ ∧
    ((NewRegistry.Register 7 ⟨[], 2⟩).Register 7 ⟨[⟨1⟩], 2⟩).Load 7 =
      some ⟨[⟨1⟩], 2⟩ ∧
    (((⟨[⟨1⟩], 2⟩ : FuncStack) == ⟨[], 2⟩) = false) :=
  ⟨rfl, rfl, by decide⟩

/-- C5 (amended): `Register` stores unconditionally: it silently overwrites
a live entry with the new wrapper; there is no liveness check and no failure
report in `Register`. -/
theorem c5_register_overwrites (r : Registry) (i : Nat) (w w' : FuncStack) :
    (r.Register i w).Load i = some w ∧
    ((r.Register i w).Register i w').Load i = some w' :=
  ⟨mapLookup_store_self _ _ _, mapLookup_store_self _ _ _⟩

/-- C6: with strict mode enabled (`check = true`), a failing receiver
validation — the callback has no first parameter, or its first parameter is
not convertible from the object's type — aborts `connectClosure` with a
panic before any native call: the returned state is the input state (every
registry unchanged) and no native event happened. -/
theorem c6_strict_failure_atomic (conv : GoType → GoType → Bool)
    (s : GlibState) (v : Nat) (t : GoType) (after : Bool)
    (detailedSignal : String) (f : List GoType)
    (hfail : (f.head?.all fun first => !(conv t first)) = true) :
    (connectClosureChecked true conv s v (some t) after detailedSignal
        f).state = s ∧
    (connectClosureChecked true conv s v (some t) after detailedSignal
        f).events = [] ∧
    ∃ e, (connectClosureChecked true conv s v (some t) after detailedSignal
        f).result = Except.error e := by
  cases f with
  | nil => exact ⟨rfl, rfl, ⟨.missingReceiver, rfl⟩⟩
  | cons first rest =>
    have hconv : conv t first = false := by simpa using hfail
    refine ⟨?_, ?_, ⟨.receiverNotConvertible, ?_⟩⟩ <;>
      simp [connectClosureChecked, NewFuncStack, hconv]

/-- C6 (witness): the theorem applied with a never-convertible `conv`. -/
theorem c6_strict_failure_atomic_witness :
    (([⟨1⟩] : List GoType).head?.all fun first =>
        !((fun _ _ => false : GoType → GoType → Bool) ⟨0⟩ first)) = true ∧
    ((connectClosureChecked true (fun _ _ => false)
        ⟨[], ⟨[], [], []⟩, 0, 0⟩ 1 (some ⟨0⟩) false "clicked"
        [⟨1⟩]).state = ⟨[], ⟨[], [], []⟩, 0, 0⟩ ∧
      (connectClosureChecked true (fun _ _ => false)
        ⟨[], ⟨[], [], []⟩, 0, 0⟩ 1 (some ⟨0⟩) false "clicked"
        [⟨1⟩]).events = [] ∧
      ∃ e, (connectClosureChecked true (fun _ _ => false)
        ⟨[], ⟨[], [], []⟩, 0, 0⟩ 1 (some ⟨0⟩) false "clicked"
        [⟨1⟩]).result = Except.error e) :=
  ⟨rfl,
    c6_strict_failure_atomic (fun _ _ => false) ⟨[], ⟨[], [], []⟩, 0, 0⟩ 1
      ⟨0⟩ false "clicked" [⟨1⟩] rfl⟩

/-- C7: `Object.ClosureNew` registers the wrapper in the connecting object's
own registry (a different object's registry is untouched), then installs the
meta-marshal and the finalize notifier — the event trace shows this order —
and the full connect path issues the native signal connect only after all
three. -/
theorem c7_closureNew_order (s : GlibState) (v o : Nat) (fs : FuncStack)
    (conv : GoType → GoType → Bool) (objValue : Option GoType) (after : Bool)
    (detailedSignal : String) (f : List GoType) (ho : o ≠ v) :
    (Object.ClosureNew s v fs).events =
      [Event.register v (Object.ClosureNew s v fs).gclosure,
       Event.setMetaMarshal (Object.ClosureNew s v fs).gclosure,
       Event.addFinalizeNotifier (Object.ClosureNew s v fs).gclosure] ∧
    (objRegistry (Object.ClosureNew s v fs).state v).Load
      (Object.ClosureNew s v fs).gclosure = some fs ∧
    objRegistry (Object.ClosureNew s v fs).state o = objRegistry s o ∧
    (connectClosure conv s v objValue after detailedSignal f).events =
      (Object.ClosureNew s v (NewFuncStack f 2)).events ++
        [Event.signalConnect v detailedSignal
          (Object.ClosureNew s v (NewFuncStack f 2)).gclosure after] := by
  refine ⟨rfl, ?_, ?_, rfl⟩
  · simp only [Object.ClosureNew, updateObjRegistry, objRegistry,
      Registry.Load, Registry.Register]
    rw [mapLookup_store_self]
    simp only [Option.getD_some]
    exact mapLookup_store_self _ _ _
  · simp only [Object.ClosureNew, updateObjRegistry, objRegistry]
    rw [mapLookup_store_other _ _ _ _ ho]

/-- C7 (witness): the theorem applied at a concrete state and objects. -/
theorem c7_closureNew_order_witness :
    (2 : Nat) ≠ 1 ∧
    ((Object.ClosureNew ⟨[], ⟨[], [], []⟩, 0, 0⟩ 1 ⟨[], 2⟩).events =
      [Event.register 1
        (Object.ClosureNew ⟨[], ⟨[], [], []⟩, 0, 0⟩ 1 ⟨[], 2⟩).gclosure,
       Event.setMetaMarshal
        (Object.ClosureNew ⟨[], ⟨[], [], []⟩, 0, 0⟩ 1 ⟨[], 2⟩).gclosure,
       Event.addFinalizeNotifier
        (Object.ClosureNew ⟨[], ⟨[], [], []⟩, 0, 0⟩ 1 ⟨[], 2⟩).gclosure] ∧
    (objRegistry (Object.ClosureNew ⟨[], ⟨[], [], []⟩, 0, 0⟩ 1
        ⟨[], 2⟩).state 1).Load
      (Object.ClosureNew ⟨[], ⟨[], [], []⟩, 0, 0⟩ 1 ⟨[], 2⟩).gclosure =
        some ⟨[], 2⟩ ∧
    objRegistry (Object.ClosureNew ⟨[], ⟨[], [], []⟩, 0, 0⟩ 1
        ⟨[], 2⟩).state 2 = objRegistry ⟨[], ⟨[], [], []⟩, 0, 0⟩ 2 ∧
    (connectClosure (fun _ _ => true) ⟨[], ⟨[], [], []⟩, 0, 0⟩ 1 none false
        "clicked" []).events =
      (Object.ClosureNew ⟨[], ⟨[], [], []⟩, 0, 0⟩ 1
          (NewFuncStack [] 2)).events ++
        [Event.signalConnect 1 "clicked"
          (Object.ClosureNew ⟨[], ⟨[], [], []⟩, 0, 0⟩ 1
            (NewFuncStack [] 2)).gclosure false]) :=
  ⟨by decide,
    c7_closureNew_order ⟨[], ⟨[], [], []⟩, 0, 0⟩ 1 2 ⟨[], 2⟩
      (fun _ _ => true) none false "clicked" [] (by decide)⟩

/-- C8: relaxed-arity policy at emission for a registered callback: when at
least as many native arguments as declared parameters are supplied, the
extras are ignored and the invocation proceeds with the sequence truncated to
the declared parameter count; when fewer are supplied, the marshal reports an
arity error instead of invoking. -/
theorem c8_arity_policy (r : Registry) (g : Nat) (fs : FuncStack)
    (args : List NativeValue) (hload : r.Load g = some fs) :
    (fs.params.length ≤ args.length →
      goMarshal r g args = .invoked (args.take fs.params.length)) ∧
    (args.length < fs.params.length →
      goMarshal r g args = .arityError) := by
  have hg : goMarshal r g args =
      if args.length < fs.params.length then .arityError
      else .invoked (args.take fs.params.length) := by
    simp [goMarshal, hload]
  constructor
  · intro hlen
    rw [hg, if_neg (Nat.not_lt.mpr hlen)]
  · intro hlen
    rw [hg, if_pos hlen]

/-- C8 (witness): a 1-parameter callback supplied with 3 native arguments. -/
theorem c8_arity_policy_witness :
    (NewRegistry.Register 4 ⟨[⟨0⟩], 2⟩).Load 4 = some ⟨[⟨0⟩], 2⟩ ∧
    (((⟨[⟨0⟩], 2⟩ : FuncStack).params.length ≤
        ([10, 20, 30] : List NativeValue).length →
      goMarshal (NewRegistry.Register 4 ⟨[⟨0⟩], 2⟩) 4 [10, 20, 30] =
        .invoked (([10, 20, 30] : List NativeValue).take
          (⟨[⟨0⟩], 2⟩ : FuncStack).params.length)) ∧
     (([10, 20, 30] : List NativeValue).length <
        (⟨[⟨0⟩], 2⟩ : FuncStack).params.length →
      goMarshal (NewRegistry.Register 4 ⟨[⟨0⟩], 2⟩) 4 [10, 20, 30] =
        .arityError)) :=
  ⟨rfl, c8_arity_policy (NewRegistry.Register 4 ⟨[⟨0⟩], 2⟩) 4 ⟨[⟨0⟩], 2⟩
    [10, 20, 30] rfl⟩

/-- C9: strict mode is statically disabled: `ClosureCheckReceiver` is the
constant `false`, so for every convertibility relation, state, object,
`goValue` outcome, ordering flag, signal name and callback parameter list,
`connectClosure` skips the receiver-validation block and returns a signal
handle — it never fails at connect time on a receiver mismatch. -/
theorem c9_check_statically_disabled (conv : GoType → GoType → Bool)
    (s : GlibState) (v : Nat) (objValue : Option GoType) (after : Bool)
    (detailedSignal : String) (f : List GoType) :
    ClosureCheckReceiver = false ∧
    (connectClosure conv s v objValue after detailedSignal f).result =
      Except.ok s.nextHandle :=
  ⟨rfl, rfl⟩

end GoGlib
